import Mathlib

/-!
Shallow embedding of the Axolotl_RAFT data-curation core: the tabular
importer, the judge-response ladder, the evaluation loop, the flagged-review
queue, the snapshot save/restore pair, and the RAFT sample synthesizer.
Each definition mirrors the corresponding JavaScript function; randomness
(shuffles, Bernoulli draws) and external calls (vector search, judge
endpoint) are passed in as explicit parameters so that theorems can
quantify over every outcome.
-/

namespace AxolotlRaft

/-! ### JS string primitives

`String.prototype.trim`, `split('\n')` and `toLowerCase().replace(/"/g,'')`
are modelled by structurally recursive functions over the character list
(the rare non-ASCII JS whitespace code points are not modelled). -/

/-- The whitespace class trimmed by JS `trim()` (ASCII part). -/
def isJsSpace (c : Char) : Bool :=
  c = ' ' ∨ c = '\t' ∨ c = '\n' ∨ c = '\r' ∨ c = '\x0b' ∨ c = '\x0c'

/-- JS `s.trim()`: strip leading and trailing whitespace. -/
def jsTrim (s : String) : String :=
  String.mk (((s.data.dropWhile isJsSpace).reverse.dropWhile isJsSpace).reverse)

/-- Accumulator loop for splitting on a separator character. -/
def jsSplitOnCharAux (sep : Char) : List Char → List Char → List String
  | [], acc => [String.mk acc.reverse]
  | c :: rest, acc =>
    if c = sep then String.mk acc.reverse :: jsSplitOnCharAux sep rest []
    else jsSplitOnCharAux sep rest (c :: acc)

/-- JS `s.split('\n')`. -/
def jsSplitNl (s : String) : List String :=
  jsSplitOnCharAux '\n' s.data []

/-! ### Tabular importer (`parseCSV` / `csvToJson`) -/

/-- Appends a finished row, keeping it only when some field is non-empty
(mirrors `if (currentRow.some(f => f)) rows.push(currentRow)`). -/
def csvPushRow (rows : List (List String)) (row : List String) : List (List String) :=
  if row.any (fun f => f ≠ "") then rows ++ [row] else rows

/-- Character-level state machine of `parseCSV`: `inQuotes` toggling on `"`,
`""` as an escaped quote, `,` ending a field outside quotes, and `\n`, `\r\n`
or a standalone `\r` ending a row outside quotes. Fields are trimmed as they
are pushed, exactly as in the source. -/
def parseCSVAux : List Char → Bool → String → List String → List (List String) →
    List (List String)
  | [], _, currentField, currentRow, rows =>
    if currentField ≠ "" ∨ currentRow ≠ [] then
      csvPushRow rows (currentRow ++ [jsTrim currentField])
    else rows
  | '"' :: '"' :: rest, true, currentField, currentRow, rows =>
    parseCSVAux rest true (currentField.push '"') currentRow rows
  | '"' :: rest, inQuotes, currentField, currentRow, rows =>
    parseCSVAux rest (!inQuotes) currentField currentRow rows
  | ',' :: rest, false, currentField, currentRow, rows =>
    parseCSVAux rest false "" (currentRow ++ [jsTrim currentField]) rows
  | '\n' :: rest, false, currentField, currentRow, rows =>
    parseCSVAux rest false "" [] (csvPushRow rows (currentRow ++ [jsTrim currentField]))
  | '\r' :: '\n' :: rest, false, currentField, currentRow, rows =>
    parseCSVAux rest false "" [] (csvPushRow rows (currentRow ++ [jsTrim currentField]))
  | '\r' :: rest, false, currentField, currentRow, rows =>
    parseCSVAux rest false "" [] (csvPushRow rows (currentRow ++ [jsTrim currentField]))
  | c :: rest, inQuotes, currentField, currentRow, rows =>
    parseCSVAux rest inQuotes (currentField.push c) currentRow rows

/-- `parseCSV(csvText)`: rows of trimmed fields; all-empty rows are dropped. -/
def parseCSV (csvText : String) : List (List String) :=
  parseCSVAux csvText.toList false "" [] []

/-- Header normalization: `h.toLowerCase().replace(/"/g, '')`. -/
def headerOf (h : String) : String :=
  String.mk ((h.data.map Char.toLower).filter (fun c => c ≠ '"'))

/-- Value of the row object `row[name]` built by
`headers.forEach((h, idx) => row[h] = values[idx] || '')`: for a duplicated
header name the later assignment wins; an absent header or a missing value
yields the empty string (the JS `undefined` and `''` are both falsy, and the
lookups below only ever test falsiness). -/
def rowGet (headers values : List String) (name : String) : String :=
  match (headers.enum.filter (fun p => p.2 = name)).getLast? with
  | some p => values.getD p.1 ""
  | none => ""

/-- JS `a || b` on strings: the empty string is falsy. -/
def jsOr (a b : String) : String :=
  if a = "" then b else a

inductive ImportFormat where
  | sharegpt
  | raft
  deriving DecidableEq, Repr

/-- The record shapes produced by `csvToJson`: a ShareGPT chat pair
(`messages` user/assistant contents) or a RAFT triple. -/
inductive ImportRecord where
  | sharegpt (question answer : String)
  | raft (instruction context cot_answer : String)
  deriving DecidableEq, Repr

/-- The record built from one kept data row in `csvToJson` (column mapping by
header aliases with positional fallback). -/
def csvRowToRecord (headers values : List String) (format : ImportFormat) : ImportRecord :=
  match format with
  | .sharegpt =>
    .sharegpt
      (jsOr (rowGet headers values "question") (jsOr (rowGet headers values "prompt")
        (jsOr (rowGet headers values "input") (jsOr (rowGet headers values "q")
          (values.getD 0 "")))))
      (jsOr (rowGet headers values "answer") (jsOr (rowGet headers values "response")
        (jsOr (rowGet headers values "output") (jsOr (rowGet headers values "a")
          (values.getD 1 "")))))
  | .raft =>
    let hasContextColumn := jsOr (rowGet headers values "context")
      (jsOr (rowGet headers values "document") (rowGet headers values "source"))
    let hasThirdColumn : Bool := 3 ≤ values.length ∧ values.getD 2 "" ≠ ""
    .raft
      (jsOr (rowGet headers values "instruction") (jsOr (rowGet headers values "question")
        (jsOr (rowGet headers values "prompt") (values.getD 0 ""))))
      (if hasContextColumn ≠ "" then hasContextColumn
        else if hasThirdColumn then values.getD 1 "" else "")
      (jsOr (rowGet headers values "cot_answer") (jsOr (rowGet headers values "answer")
        (jsOr (rowGet headers values "response")
          (if hasThirdColumn then values.getD 2 "" else values.getD 1 ""))))

/-- `csvToJson(csvText, format)`: fewer than two parsed rows yield nothing,
the first row becomes the header row, and each later row with at least two
fields becomes one record (`if (values.length < 2) continue`). -/
def csvToJson (csvText : String) (format : ImportFormat) : List ImportRecord :=
  if (parseCSV csvText).length < 2 then []
  else
    ((parseCSV csvText).drop 1).filterMap (fun values =>
      if values.length < 2 then none
      else some (csvRowToRecord (((parseCSV csvText).headD []).map headerOf) values format))

/-! ### Judge response ladder (`parseJudgeOutput`) -/

/-- The regex character class `[1-5]`. -/
def isDigit15 (c : Char) : Bool :=
  c = '1' ∨ c = '2' ∨ c = '3' ∨ c = '4' ∨ c = '5'

/-- `parseInt` on a single matched digit. -/
def digitVal (c : Char) : ℕ :=
  c.toNat - 48

/-- `/^[1-5]$/.test(firstLine)` together with the extracted digit. -/
def singleDigitScore (s : String) : Option ℕ :=
  match s.toList with
  | [c] => if isDigit15 c then some (digitVal c) else none
  | _ => none

/-- The regex class `[:\s]` (a colon or whitespace; the rare non-ASCII JS
whitespace code points are not modelled). -/
def isRatingSep (c : Char) : Bool :=
  c = ':' ∨ c = ' ' ∨ c = '\t' ∨ c = '\n' ∨ c = '\r' ∨ c = '\x0b' ∨ c = '\x0c'

/-- One anchored attempt of `/rating[:\s]+([1-5])/i` at the head of `cs`:
a case-insensitive `rating`, then a non-empty separator run, then a digit 1-5.
Returns the digit value and the text after the match. Separators never
overlap digits, so the greedy `+` consumes exactly the maximal run. -/
def tryRatingAt (cs : List Char) : Option (ℕ × List Char) :=
  if (cs.take 6).map Char.toLower = "rating".toList ∧ 6 ≤ cs.length then
    if ((cs.drop 6).takeWhile isRatingSep) = [] then none
    else
      match (cs.drop 6).drop ((cs.drop 6).takeWhile isRatingSep).length with
      | d :: tail => if isDigit15 d then some (digitVal d, tail) else none
      | [] => none
  else none

/-- Leftmost match of `/rating[:\s]+([1-5])/i`, as `String.prototype.match`
finds it; yields the score and the remainder of the text after the match
(the source slices at `indexOf(match) + match.length`, which coincides with
the match end because any earlier occurrence of the matched text would itself
be a leftmost match). -/
def ratingSearch : List Char → Option (ℕ × List Char)
  | [] => none
  | c :: rest =>
    match tryRatingAt (c :: rest) with
    | some r => some r
    | none => ratingSearch rest

/-- `parseJudgeOutput(output)`: the ordered fallback ladder — standalone
first-line digit, then a `rating: N` pattern, then any digit 1-5 in the first
50 characters, then the default score 3 with the raw text as explanation. -/
def parseJudgeOutput (output : String) : ℕ × String :=
  match singleDigitScore (jsTrim ((jsSplitNl (jsTrim output)).headD "")) with
  | some sc => (sc, jsTrim (String.intercalate "\n" ((jsSplitNl (jsTrim output)).drop 1)))
  | none =>
    match ratingSearch output.toList with
    | some r => (r.1, jsTrim (String.mk r.2))
    | none =>
      match (output.toList.take 50).find? isDigit15 with
      | some d => (digitVal d, output)
      | none => (3, output)

/-! ### Evaluation loop (`runEvaluation`) -/

structure ResponseItem where
  _id : String
  question : String
  expected_answer : String
  model_response : String
  deriving DecidableEq, Repr

inductive EvalStatus where
  | passed
  | flagged
  | error
  | corrected
  | accepted
  | rejected
  deriving DecidableEq, Repr

structure EvalResult where
  item : ResponseItem
  _evalScore : ℚ
  _rawScore : ℕ
  _evalExplanation : String
  _status : EvalStatus
  _correctedAnswer : String
  deriving DecidableEq, Repr

/-- One iteration of the `runEvaluation` loop body. The judge endpoint call
is the injected `judgeCall` (the `fetch` plus output-field extraction);
`Except.error msg` is the thrown `err` with `err.message = msg`, handled by
the `catch` branch. `_correctedAnswer` starts empty (JS `undefined`). -/
def evalOne (judgeCall : ResponseItem → Except String String) (scoreThreshold : ℚ)
    (item : ResponseItem) : EvalResult :=
  match judgeCall item with
  | .ok judgeOutput =>
    { item := item
      _evalScore := (((parseJudgeOutput judgeOutput).1 : ℚ) - 1) / 4
      _rawScore := (parseJudgeOutput judgeOutput).1
      _evalExplanation := (parseJudgeOutput judgeOutput).2
      _status :=
        if (((parseJudgeOutput judgeOutput).1 : ℚ) - 1) / 4 < scoreThreshold then .flagged
        else .passed
      _correctedAnswer := "" }
  | .error msg =>
    { item := item
      _evalScore := 0
      _rawScore := 1
      _evalExplanation := "Error: " ++ msg
      _status := .error
      _correctedAnswer := "" }

/-- The `runEvaluation` loop: strictly sequential, one pushed result per
input item (the per-item `try/catch` keeps the batch going on failure). -/
def runEvaluation (judgeCall : ResponseItem → Except String String) (scoreThreshold : ℚ)
    (modelResponses : List ResponseItem) : List EvalResult :=
  modelResponses.map (evalOne judgeCall scoreThreshold)

/-! ### Flagged review queue and corrections export (`MetricsSection`) -/

/-- `evalResults.filter(r => r._status === 'flagged' || r._status === 'corrected')`. -/
def flaggedItems (evalResults : List EvalResult) : List EvalResult :=
  evalResults.filter (fun r => r._status = .flagged ∨ r._status = .corrected)

/-- `handleAcceptAsIs`: no-op when `flaggedItems[flaggedIndex]` is undefined;
otherwise the current item becomes `accepted` and the cursor advances when
`flaggedIndex < flaggedItems.length - 1`, else retreats when positive. -/
def handleAcceptAsIs (evalResults : List EvalResult) (flaggedIndex : ℕ) :
    List EvalResult × ℕ :=
  match (flaggedItems evalResults).get? flaggedIndex with
  | none => (evalResults, flaggedIndex)
  | some currentFlagged =>
    let updated := evalResults.map (fun item =>
      if item.item._id = currentFlagged.item._id then { item with _status := .accepted }
      else item)
    let newIndex :=
      if flaggedIndex < (flaggedItems evalResults).length - 1 then flaggedIndex + 1
      else if 0 < flaggedIndex then flaggedIndex - 1
      else flaggedIndex
    (updated, newIndex)

/-- `handleRejectItem`: identical to `handleAcceptAsIs` with status `rejected`. -/
def handleRejectItem (evalResults : List EvalResult) (flaggedIndex : ℕ) :
    List EvalResult × ℕ :=
  match (flaggedItems evalResults).get? flaggedIndex with
  | none => (evalResults, flaggedIndex)
  | some currentFlagged =>
    let updated := evalResults.map (fun item =>
      if item.item._id = currentFlagged.item._id then { item with _status := .rejected }
      else item)
    let newIndex :=
      if flaggedIndex < (flaggedItems evalResults).length - 1 then flaggedIndex + 1
      else if 0 < flaggedIndex then flaggedIndex - 1
      else flaggedIndex
    (updated, newIndex)

structure ChatMessagePair where
  user : String
  assistant : String
  deriving DecidableEq, Repr

/-- `exportCorrections`: `none` models the early `showAlert` return when no
record has status `corrected`; otherwise the corrected records reshaped as
question / corrected-answer chat pairs. -/
def exportCorrections (evalResults : List EvalResult) : Option (List ChatMessagePair) :=
  if (evalResults.filter (fun r => r._status = .corrected)).length = 0 then none
  else some ((evalResults.filter (fun r => r._status = .corrected)).map
    (fun item => ⟨item.item.question, item._correctedAnswer⟩))

/-! ### Snapshot save / restore (`handleSave` / `handleResumeFileLoad`) -/

structure FileInfo where
  name : String
  kind : String
  converted : Bool
  deriving DecidableEq, Repr

/-- The persisted snapshot layout `{data, fileInfo, currentIndex, savedAt}`;
JSON serialization followed by `JSON.parse` is the identity on this plain
data and is modelled as such. -/
structure SaveBlob (α : Type) where
  data : List α
  fileInfo : FileInfo
  currentIndex : ℕ
  savedAt : String

structure ResumeState (α : Type) where
  trainingData : List α
  fileInfo : FileInfo
  currentIndex : ℕ
  editMode : Bool

/-- `handleSave`: the guard `if (!trainingData.length) return` produces no
blob for an empty record set; otherwise the full state is serialized. -/
def handleSave {α : Type} (trainingData : List α) (fileInfo : FileInfo)
    (currentIndex : ℕ) (savedAt : String) : Option (SaveBlob α) :=
  if trainingData.length = 0 then none
  else some ⟨trainingData, fileInfo, currentIndex, savedAt⟩

/-- `handleResumeFileLoad`: replaces the whole state from the blob. JS
arrays are truthy (even empty), so `saveData.data || []` passes the stored
list through; `saveData.currentIndex || 0` maps the falsy index 0 to 0. -/
def handleResumeFileLoad {α : Type} (saveData : SaveBlob α) : ResumeState α :=
  { trainingData := saveData.data
    fileInfo := saveData.fileInfo
    currentIndex := if saveData.currentIndex = 0 then 0 else saveData.currentIndex
    editMode := false }

/-! ### RAFT synthesis (`handlePrepareRaft` and helpers) -/

structure RaftDoc where
  id : String
  content : String
  is_oracle : Bool
  deriving DecidableEq, Repr

/-- An accepted item as seen by the RAFT loop, after the
`messages?.[0]?.content || question || instruction` extraction. -/
structure RaftItem where
  _id : String
  question : String
  answer : String
  deriving DecidableEq, Repr

/-- `generateCotAnswer(question, answer, oracleDocNum)`. -/
def generateCotAnswer (question answer : String) (oracleDocNum : ℤ) : String :=
  "Let me analyze the provided documents to answer: " ++ question ++
  "\n\nLooking at Document " ++ toString oracleDocNum ++
  ", I find relevant information that addresses this question.\n\nBased on Document " ++
  toString oracleDocNum ++ ", the answer is:\n\n" ++ answer

/-- The fixed refusal text used when the oracle is excluded. -/
def raftRefusalAnswer (question : String) : String :=
  "I\x27ve reviewed the provided documents looking for information about: " ++ question ++
  "\n\nHowever, none of the documents contain sufficient information to answer this question accurately. I would need additional sources to provide a reliable answer."

/-- The oracle document `{id: oracle_(item._id || i), content: q\n\na, is_oracle: true}`. -/
def raftOracleDoc (itemId : String) (i : ℕ) (question answer : String) : RaftDoc :=
  ⟨"oracle_" ++ (if itemId = "" then toString i else itemId),
    question ++ "\n\n" ++ answer, true⟩

/-- `createFallbackDistractors`: the first `numDistractors` items of the
randomly shuffled sibling pool (`shuffledOthers` is the shuffle outcome of
`allItems` without the current index), tagged `is_oracle: false`. -/
def createFallbackDistractors (shuffledOthers : List RaftItem) (numDistractors : ℕ) :
    List RaftDoc :=
  ((shuffledOthers.take numDistractors).enum).map (fun p =>
    ⟨"distractor_" ++ (if p.2._id = "" then toString p.1 else p.2._id),
      p.2.question ++ "\n\n" ++ p.2.answer, false⟩)

/-- The Weaviate branch: `result.documents.slice(0, numDistractors)` mapped
to `{id, content, is_oracle: false}`; `searchResults` is the (possibly empty)
retrieved list. -/
def weaviateDistractors (searchResults : List (String × String)) (numDistractors : ℕ) :
    List RaftDoc :=
  (searchResults.take numDistractors).map (fun d => ⟨d.1, d.2, false⟩)

/-- The composed distractor set of `handlePrepareRaft`: remote results topped
up from the sibling fallback when fewer than `numDistractors` remain. -/
def raftDistractors (searchResults : List (String × String))
    (shuffledOthers : List RaftItem) (numDistractors : ℕ) : List RaftDoc :=
  if (weaviateDistractors searchResults numDistractors).length < numDistractors then
    weaviateDistractors searchResults numDistractors ++
      createFallbackDistractors shuffledOthers
        (numDistractors - (weaviateDistractors searchResults numDistractors).length)
  else weaviateDistractors searchResults numDistractors

structure RaftSample where
  documents : List RaftDoc
  cotAnswer : String
  userContent : String
  oracleIncluded : Bool
  deriving Repr

/-- The numbered context block `[Document i]\ncontent` joined by blank lines. -/
def formatDocumentsContext (documents : List RaftDoc) : String :=
  String.intercalate "\n\n"
    (documents.enum.map (fun p => "[Document " ++ toString (p.1 + 1) ++ "]\n" ++ p.2.content))

/-- The final user prompt combining the context block and the question. -/
def raftUserContent (documents : List RaftDoc) (question : String) : String :=
  "Based on the following documents, answer the question.\nIf the answer is found in one of the documents, cite it by document number.\n\n"
  ++ formatDocumentsContext documents ++ "\n\nQuestion: " ++ question

/-- The per-item body of `handlePrepareRaft` after the distractors are fixed:
`includeOracle` is the outcome of the Bernoulli draw and `shuffleOutcome` the
outcome of `[oracleDoc, ...distractors].sort(() => Math.random() - 0.5)`
(some permutation of that array). When the oracle is included, the cited
position is `findIndex(d => d.is_oracle) + 1` (JS `findIndex` yields -1 when
absent); when excluded, the documents are the distractors unshuffled and the
answer is the fixed refusal. -/
def prepareRaftSample (question answer : String) (distractors : List RaftDoc)
    (includeOracle : Bool) (shuffleOutcome : List RaftDoc) : RaftSample :=
  if includeOracle then
    ⟨shuffleOutcome,
      generateCotAnswer question answer
        ((match shuffleOutcome.findIdx? (fun d => d.is_oracle) with
          | some i => (i : ℤ)
          | none => -1) + 1),
      raftUserContent shuffleOutcome question, true⟩
  else
    ⟨distractors, raftRefusalAnswer question,
      raftUserContent distractors question, false⟩

/-! ### Helper lemmas -/

theorem isDigit15_digitVal {c : Char} (h : isDigit15 c = true) :
    1 ≤ digitVal c ∧ digitVal c ≤ 5 := by
  simp only [isDigit15, decide_eq_true_eq] at h
  rcases h with h | h | h | h | h <;> subst h <;> simp [digitVal]

theorem singleDigitScore_bounds {s : String} {n : ℕ} (h : singleDigitScore s = some n) :
    1 ≤ n ∧ n ≤ 5 := by
  unfold singleDigitScore at h
  split at h
  · split at h
    · injection h with h
      subst h
      exact isDigit15_digitVal (by assumption)
    · exact absurd h (by simp)
  · exact absurd h (by simp)

theorem tryRatingAt_bounds {cs : List Char} {r : ℕ × List Char}
    (h : tryRatingAt cs = some r) : 1 ≤ r.1 ∧ r.1 ≤ 5 := by
  unfold tryRatingAt at h
  split at h
  · split at h
    · exact absurd h (by simp)
    · split at h
      · split at h
        · injection h with h
          subst h
          exact isDigit15_digitVal (by assumption)
        · exact absurd h (by simp)
      · exact absurd h (by simp)
  · exact absurd h (by simp)

theorem ratingSearch_bounds :
    ∀ {cs : List Char} {r : ℕ × List Char},
      ratingSearch cs = some r → 1 ≤ r.1 ∧ r.1 ≤ 5 := by
  intro cs
  induction cs with
  | nil => intro r h; exact absurd h (by simp [ratingSearch])
  | cons c cs ih =>
    intro r h
    unfold ratingSearch at h
    split at h
    · injection h with h
      subst h
      exact tryRatingAt_bounds (by assumption)
    · exact ih h

theorem parseJudgeOutput_score_bounds (output : String) :
    1 ≤ (parseJudgeOutput output).1 ∧ (parseJudgeOutput output).1 ≤ 5 := by
  unfold parseJudgeOutput
  split
  · exact singleDigitScore_bounds (by assumption)
  · split
    · exact ratingSearch_bounds (by assumption)
    · split
      · next d hd =>
        exact isDigit15_digitVal (List.find?_some hd)
      · simp

theorem countP_one_unique {α : Type} (p : α → Bool) :
    ∀ (l : List α), l.countP p = 1 → ∀ i j (hi : i < l.length) (hj : j < l.length),
      p (l.get ⟨i, hi⟩) = true → p (l.get ⟨j, hj⟩) = true → i = j := by
  intro l
  induction l with
  | nil => intro h; simp at h
  | cons a t ih =>
    intro h i j hi hj hpi hpj
    have hlen : (a :: t).length = t.length + 1 := List.length_cons a t
    rw [List.countP_cons] at h
    by_cases hpa : p a = true
    · have ht : t.countP p = 0 := by rw [if_pos hpa] at h; omega
      have hall : ∀ x ∈ t, ¬ p x = true := List.countP_eq_zero.mp ht
      cases i with
      | zero =>
        cases j with
        | zero => rfl
        | succ j =>
          rw [List.get_cons_succ] at hpj
          exact absurd hpj (hall _ (List.get_mem t _ _))
      | succ i =>
        rw [List.get_cons_succ] at hpi
        exact absurd hpi (hall _ (List.get_mem t _ _))
    · have ht : t.countP p = 1 := by rw [if_neg hpa] at h; omega
      cases i with
      | zero => exact absurd hpi hpa
      | succ i =>
        cases j with
        | zero => exact absurd hpj hpa
        | succ j =>
          rw [List.get_cons_succ] at hpi
          rw [List.get_cons_succ] at hpj
          have := ih ht i j (by omega) (by omega) hpi hpj
          omega

theorem filterMap_dropShort {β : Type} (f : List String → β) :
    ∀ l : List (List String),
      l.filterMap (fun v => if v.length < 2 then none else some (f v)) =
        (l.filter (fun v => 2 ≤ v.length)).map f := by
  intro l
  induction l with
  | nil => rfl
  | cons a l ih =>
    by_cases h : a.length < 2
    · rw [List.filterMap_cons, List.filter_cons]
      simp only [if_pos h, ih]
      rw [if_neg (by simpa using by omega)]
    · rw [List.filterMap_cons, List.filter_cons]
      simp only [if_neg h, ih]
      rw [if_pos (by simpa using by omega)]
      simp

theorem weaviateDistractors_no_oracle (searchResults : List (String × String))
    (numDistractors : ℕ) :
    ∀ d ∈ weaviateDistractors searchResults numDistractors, d.is_oracle = false := by
  intro d hd
  simp only [weaviateDistractors, List.mem_map] at hd
  obtain ⟨x, _, rfl⟩ := hd
  rfl

theorem createFallbackDistractors_no_oracle (shuffledOthers : List RaftItem)
    (numDistractors : ℕ) :
    ∀ d ∈ createFallbackDistractors shuffledOthers numDistractors, d.is_oracle = false := by
  intro d hd
  simp only [createFallbackDistractors, List.mem_map] at hd
  obtain ⟨x, _, rfl⟩ := hd
  rfl

theorem raftDistractors_no_oracle (searchResults : List (String × String))
    (shuffledOthers : List RaftItem) (numDistractors : ℕ) :
    ∀ d ∈ raftDistractors searchResults shuffledOthers numDistractors,
      d.is_oracle = false := by
  intro d hd
  simp only [raftDistractors] at hd
  split at hd
  · rcases List.mem_append.mp hd with hw | hf
    · exact weaviateDistractors_no_oracle _ _ _ hw
    · exact createFallbackDistractors_no_oracle _ _ _ hf
  · exact weaviateDistractors_no_oracle _ _ _ hd

/-! ### Claim theorems -/

/-- C2: on the four literal judge outputs the parser returns scores 4, 2, 3
and 3 via the ordered fallback ladder — first-line single digit, `rating: N`
pattern, digit within the first 50 characters, and the default score 3 with
the entire raw text as explanation. -/
theorem parseJudgeOutput_literal_ladder :
    parseJudgeOutput "4\nGood answer" = (4, "Good answer") ∧
    parseJudgeOutput "Some preamble. Rating: 2. Needs work." = (2, ". Needs work.") ∧
    parseJudgeOutput "3" = (3, "") ∧
    parseJudgeOutput "no numeric signal here" = (3, "no numeric signal here") :=
  ⟨by decide, by decide, by decide, by decide⟩

/-- C10: when the parse yields fewer than two rows, `csvToJson` returns the
empty sequence, and in general the first parsed row is consumed as the header
row and never becomes a record (at most `rows - 1` records are emitted). -/
theorem csvToJson_consumes_header (t : String) (fmt : ImportFormat) :
    ((parseCSV t).length < 2 → csvToJson t fmt = []) ∧
    (csvToJson t fmt).length ≤ (parseCSV t).length - 1 := by
  constructor
  · intro h
    unfold csvToJson
    rw [if_pos h]
  · unfold csvToJson
    split
    · simp
    · calc (((parseCSV t).drop 1).filterMap _).length
          ≤ ((parseCSV t).drop 1).length := List.length_filterMap_le _ _
        _ = (parseCSV t).length - 1 := by simp

/-- C10 witness: a single well-formed question/answer data line with no
header imports nothing. -/
theorem csvToJson_consumes_header_witness :
    (parseCSV "a,b").length < 2 ∧ csvToJson "a,b" ImportFormat.sharegpt = [] :=
  ⟨by decide, (csvToJson_consumes_header "a,b" ImportFormat.sharegpt).1 (by decide)⟩

/-- C3 counterexample: the data row `,x` has only one non-empty field, yet it
is not dropped: it becomes a record whose question is empty. -/
theorem csvToJson_empty_question_counterexample :
    csvToJson "question,answer\n,x" ImportFormat.sharegpt = [ImportRecord.sharegpt "" "x"] ∧
    (((parseCSV "question,answer\n,x").getD 1 []).filter (fun f => f ≠ "")).length < 2 :=
  ⟨by decide, by decide⟩

/-- C3 amended: a parsed data row is dropped exactly when it has fewer than
two fields (regardless of how many are non-empty); every kept row becomes one
record via the header/positional column mapping, and that record's question
or answer may be empty when the corresponding field is empty. -/
theorem csvToJson_drops_short_rows (t : String) (fmt : ImportFormat)
    (h : 2 ≤ (parseCSV t).length) :
    csvToJson t fmt =
      (((parseCSV t).drop 1).filter (fun v => 2 ≤ v.length)).map
        (fun v => csvRowToRecord (((parseCSV t).headD []).map headerOf) v fmt) := by
  unfold csvToJson
  rw [if_neg (by omega)]
  exact filterMap_dropShort _ _

/-- C3 amended witness: the characterization evaluated on the
counterexample input. -/
theorem csvToJson_drops_short_rows_witness :
    2 ≤ (parseCSV "question,answer\n,x").length ∧
    csvToJson "question,answer\n,x" ImportFormat.sharegpt =
      (((parseCSV "question,answer\n,x").drop 1).filter (fun v => 2 ≤ v.length)).map
        (fun v => csvRowToRecord
          (((parseCSV "question,answer\n,x").headD []).map headerOf) v
          ImportFormat.sharegpt) :=
  ⟨by decide,
    csvToJson_drops_short_rows "question,answer\n,x" ImportFormat.sharegpt (by decide)⟩

/-- C6: whenever `handleSave` produces a snapshot blob, restoring that blob
with `handleResumeFileLoad` reproduces the identical record set, the same
cursor position and the same file info — the restore fully replaces the
current state. -/
theorem snapshot_roundtrip {α : Type} (trainingData : List α) (fileInfo : FileInfo)
    (currentIndex : ℕ) (savedAt : String) (blob : SaveBlob α)
    (h : handleSave trainingData fileInfo currentIndex savedAt = some blob) :
    (handleResumeFileLoad blob).trainingData = trainingData ∧
    (handleResumeFileLoad blob).currentIndex = currentIndex ∧
    (handleResumeFileLoad blob).fileInfo = fileInfo ∧
    (handleResumeFileLoad blob).editMode = false := by
  unfold handleSave at h
  split at h
  · exact absurd h (by simp)
  · injection h with h
    subst h
    refine ⟨rfl, ?_, rfl, rfl⟩
    unfold handleResumeFileLoad
    by_cases hc : currentIndex = 0
    · simp [hc]
    · simp [hc]

/-- C6 witness: round trip on a concrete three-record store with cursor 2. -/
theorem snapshot_roundtrip_witness :
    (handleResumeFileLoad
      (⟨[10, 20, 30], ⟨"p.json", "JSON", false⟩, 2, "2026-01-01"⟩ : SaveBlob ℕ)).trainingData
        = [10, 20, 30] ∧
    (handleResumeFileLoad
      (⟨[10, 20, 30], ⟨"p.json", "JSON", false⟩, 2, "2026-01-01"⟩ : SaveBlob ℕ)).currentIndex
        = 2 ∧
    (handleResumeFileLoad
      (⟨[10, 20, 30], ⟨"p.json", "JSON", false⟩, 2, "2026-01-01"⟩ : SaveBlob ℕ)).fileInfo
        = ⟨"p.json", "JSON", false⟩ ∧
    (handleResumeFileLoad
      (⟨[10, 20, 30], ⟨"p.json", "JSON", false⟩, 2, "2026-01-01"⟩ : SaveBlob ℕ)).editMode
        = false :=
  snapshot_roundtrip [10, 20, 30] ⟨"p.json", "JSON", false⟩ 2 "2026-01-01"
    ⟨[10, 20, 30], ⟨"p.json", "JSON", false⟩, 2, "2026-01-01"⟩ rfl

/-- C8: `exportCorrections` signals "nothing to export" exactly when no
record has status `corrected`; otherwise it returns precisely the corrected
records, in stored order, reshaped as question / corrected-answer chat pairs;
over one `corrected` and one `flagged` record it exports exactly the
corrected pair. -/
theorem exportCorrections_only_corrected (evalResults : List EvalResult) :
    ((∀ r ∈ evalResults, r._status ≠ .corrected) → exportCorrections evalResults = none) ∧
    (∀ pairs, exportCorrections evalResults = some pairs →
      pairs = (evalResults.filter (fun r => r._status = .corrected)).map
        (fun r => ChatMessagePair.mk r.item.question r._correctedAnswer) ∧
      pairs ≠ []) ∧
    (∀ r1 r2 : EvalResult, r1._status = .corrected → r2._status = .flagged →
      exportCorrections [r1, r2] =
        some [ChatMessagePair.mk r1.item.question r1._correctedAnswer]) := by
  refine ⟨?_, ?_, ?_⟩
  · intro h
    unfold exportCorrections
    rw [if_pos]
    have : evalResults.filter (fun r => r._status = .corrected) = [] := by
      apply List.filter_eq_nil_iff.mpr
      intro a ha
      simpa using h a ha
    rw [this]
    rfl
  · intro pairs hp
    unfold exportCorrections at hp
    split at hp
    · exact absurd hp (by simp)
    · next hne =>
      injection hp with hp
      subst hp
      refine ⟨rfl, ?_⟩
      intro hnil
      rw [List.map_eq_nil_iff] at hnil
      rw [hnil] at hne
      exact hne rfl
  · intro r1 r2 h1 h2
    have hf : List.filter (fun r => r._status = EvalStatus.corrected) [r1, r2] = [r1] := by
      simp [h1, h2]
    unfold exportCorrections
    rw [hf]
    rfl

/-- C8 witness: one corrected and one flagged record yield exactly the
corrected pair. -/
theorem exportCorrections_only_corrected_witness :
    exportCorrections
      [⟨⟨"1", "q1", "e1", "m1"⟩, 0, 1, "", .corrected, "fixed answer"⟩,
       ⟨⟨"2", "q2", "e2", "m2"⟩, 0, 1, "", .flagged, ""⟩] =
      some [ChatMessagePair.mk "q1" "fixed answer"] :=
  (exportCorrections_only_corrected []).2.2
    ⟨⟨"1", "q1", "e1", "m1"⟩, 0, 1, "", .corrected, "fixed answer"⟩
    ⟨⟨"2", "q2", "e2", "m2"⟩, 0, 1, "", .flagged, ""⟩ rfl rfl

/-- C9: the acted-on record leaves the review queue, but the cursor update
compares against the queue length from before the removal: accepting (or
rejecting) the first of two flagged records moves the cursor to 1 while the
remaining queue has length 1, so the cursor points out of bounds — the code
evaluated at the failing input. -/
theorem flagged_cursor_out_of_bounds :
    (handleAcceptAsIs
      [⟨⟨"1", "q1", "e1", "m1"⟩, 0, 1, "", .flagged, ""⟩,
       ⟨⟨"2", "q2", "e2", "m2"⟩, 0, 1, "", .flagged, ""⟩] 0).2 = 1 ∧
    (flaggedItems (handleAcceptAsIs
      [⟨⟨"1", "q1", "e1", "m1"⟩, 0, 1, "", .flagged, ""⟩,
       ⟨⟨"2", "q2", "e2", "m2"⟩, 0, 1, "", .flagged, ""⟩] 0).1).length = 1 ∧
    ¬ (handleAcceptAsIs
      [⟨⟨"1", "q1", "e1", "m1"⟩, 0, 1, "", .flagged, ""⟩,
       ⟨⟨"2", "q2", "e2", "m2"⟩, 0, 1, "", .flagged, ""⟩] 0).2 <
      (flaggedItems (handleAcceptAsIs
        [⟨⟨"1", "q1", "e1", "m1"⟩, 0, 1, "", .flagged, ""⟩,
         ⟨⟨"2", "q2", "e2", "m2"⟩, 0, 1, "", .flagged, ""⟩] 0).1).length ∧
    (handleRejectItem
      [⟨⟨"1", "q1", "e1", "m1"⟩, 0, 1, "", .flagged, ""⟩,
       ⟨⟨"2", "q2", "e2", "m2"⟩, 0, 1, "", .flagged, ""⟩] 0).2 = 1 ∧
    (flaggedItems (handleRejectItem
      [⟨⟨"1", "q1", "e1", "m1"⟩, 0, 1, "", .flagged, ""⟩,
       ⟨⟨"2", "q2", "e2", "m2"⟩, 0, 1, "", .flagged, ""⟩] 0).1).length = 1 := by
  decide

/-- C4: the evaluation batch yields exactly one result per input record, in
input order; a record whose judge call fails gets status `error`, raw score
1, normalized score 0 and an explanation carrying the failure message, while
every other record is still evaluated. -/
theorem runEvaluation_one_result_per_record
    (judgeCall : ResponseItem → Except String String) (scoreThreshold : ℚ)
    (modelResponses : List ResponseItem) :
    (runEvaluation judgeCall scoreThreshold modelResponses).length =
      modelResponses.length ∧
    (∀ i : ℕ, (runEvaluation judgeCall scoreThreshold modelResponses).get? i =
      (modelResponses.get? i).map (evalOne judgeCall scoreThreshold)) ∧
    (∀ item msg, judgeCall item = .error msg →
      (evalOne judgeCall scoreThreshold item)._status = .error ∧
      (evalOne judgeCall scoreThreshold item)._rawScore = 1 ∧
      (evalOne judgeCall scoreThreshold item)._evalScore = 0 ∧
      (evalOne judgeCall scoreThreshold item)._evalExplanation = "Error: " ++ msg) := by
  refine ⟨by simp [runEvaluation], ?_, ?_⟩
  · intro i
    simp [runEvaluation, List.get?_eq_getElem?, List.getElem?_map]
  · intro item msg hmsg
    unfold evalOne
    rw [hmsg]
    exact ⟨rfl, rfl, rfl, rfl⟩

/-- C4 witness: a two-record batch whose first judge call fails produces two
results in order — an `error` result with normalized score 0, then a
normally judged result. -/
theorem runEvaluation_one_result_per_record_witness :
    (runEvaluation
      (fun it => if it._id = "1" then .error "timeout" else .ok "4\nok") (7/10)
      [⟨"1", "q1", "e1", "m1"⟩, ⟨"2", "q2", "e2", "m2"⟩]).length = 2 ∧
    ((runEvaluation
      (fun it => if it._id = "1" then .error "timeout" else .ok "4\nok") (7/10)
      [⟨"1", "q1", "e1", "m1"⟩, ⟨"2", "q2", "e2", "m2"⟩]).get? 0).map
        (fun r => (r._status, r._evalScore, r._evalExplanation)) =
      some (.error, 0, "Error: timeout") ∧
    ((runEvaluation
      (fun it => if it._id = "1" then .error "timeout" else .ok "4\nok") (7/10)
      [⟨"1", "q1", "e1", "m1"⟩, ⟨"2", "q2", "e2", "m2"⟩]).get? 1).map
        (fun r => (r._rawScore, r._evalExplanation)) = some (4, "ok") := by
  refine ⟨?_, by decide, by decide⟩
  simpa using (runEvaluation_one_result_per_record
    (fun it => if it._id = "1" then .error "timeout" else .ok "4\nok") (7/10)
    [⟨"1", "q1", "e1", "m1"⟩, ⟨"2", "q2", "e2", "m2"⟩]).1

/-- C5: for a successfully judged record the normalized score is
`(rawScore - 1) / 4` (0 at raw 1, 1 at raw 5, always within [0,1]) and the
status is `flagged` exactly when the normalized score is below the threshold
and `passed` otherwise; with threshold 0.7 a normalized score of 0.5 is
flagged and 0.75 is passed. -/
theorem evalOne_normalization (judgeCall : ResponseItem → Except String String)
    (scoreThreshold : ℚ) (item : ResponseItem) (judgeOutput : String)
    (h : judgeCall item = .ok judgeOutput) :
    (evalOne judgeCall scoreThreshold item)._evalScore =
      (((evalOne judgeCall scoreThreshold item)._rawScore : ℚ) - 1) / 4 ∧
    ((evalOne judgeCall scoreThreshold item)._rawScore = 1 →
      (evalOne judgeCall scoreThreshold item)._evalScore = 0) ∧
    ((evalOne judgeCall scoreThreshold item)._rawScore = 5 →
      (evalOne judgeCall scoreThreshold item)._evalScore = 1) ∧
    0 ≤ (evalOne judgeCall scoreThreshold item)._evalScore ∧
    (evalOne judgeCall scoreThreshold item)._evalScore ≤ 1 ∧
    ((evalOne judgeCall scoreThreshold item)._status = .flagged ↔
      (evalOne judgeCall scoreThreshold item)._evalScore < scoreThreshold) ∧
    ((evalOne judgeCall scoreThreshold item)._status = .passed ↔
      ¬ (evalOne judgeCall scoreThreshold item)._evalScore < scoreThreshold) ∧
    (scoreThreshold = 7/10 → (evalOne judgeCall scoreThreshold item)._evalScore = 1/2 →
      (evalOne judgeCall scoreThreshold item)._status = .flagged) ∧
    (scoreThreshold = 7/10 → (evalOne judgeCall scoreThreshold item)._evalScore = 3/4 →
      (evalOne judgeCall scoreThreshold item)._status = .passed) := by
  have he : evalOne judgeCall scoreThreshold item =
      { item := item
        _evalScore := (((parseJudgeOutput judgeOutput).1 : ℚ) - 1) / 4
        _rawScore := (parseJudgeOutput judgeOutput).1
        _evalExplanation := (parseJudgeOutput judgeOutput).2
        _status :=
          if (((parseJudgeOutput judgeOutput).1 : ℚ) - 1) / 4 < scoreThreshold then .flagged
          else .passed
        _correctedAnswer := "" } := by
    unfold evalOne
    rw [h]
  obtain ⟨hlo, hhi⟩ := parseJudgeOutput_score_bounds judgeOutput
  have hloq : (1 : ℚ) ≤ ((parseJudgeOutput judgeOutput).1 : ℚ) := by exact_mod_cast hlo
  have hhiq : ((parseJudgeOutput judgeOutput).1 : ℚ) ≤ 5 := by exact_mod_cast hhi
  rw [he]
  dsimp only
  refine ⟨rfl, ?_, ?_, ?_, ?_, ?_, ?_, ?_, ?_⟩
  · intro h1
    rw [h1]
    norm_num
  · intro h5
    rw [h5]
    norm_num
  · apply div_nonneg (by linarith) (by norm_num)
  · rw [div_le_one (by norm_num : (0:ℚ) < 4)]
    linarith
  · by_cases hc : (((parseJudgeOutput judgeOutput).1 : ℚ) - 1) / 4 < scoreThreshold
    · simp [hc]
    · simp [hc]
  · by_cases hc : (((parseJudgeOutput judgeOutput).1 : ℚ) - 1) / 4 < scoreThreshold
    · simp [hc]
    · simp [hc]
  · intro ht hv
    rw [ht, hv] at *
    rw [if_pos (by norm_num)]
  · intro ht hv
    rw [ht, hv] at *
    rw [if_neg (by norm_num)]

/-- C5 witness: with threshold 0.7, raw score 3 (normalized 0.5) is flagged
and raw score 4 (normalized 0.75) is passed. -/
theorem evalOne_normalization_witness :
    (evalOne (fun _ => Except.ok "3") (7/10) ⟨"1", "q", "e", "m"⟩)._status =
      EvalStatus.flagged ∧
    (evalOne (fun _ => Except.ok "4\nok") (7/10) ⟨"1", "q", "e", "m"⟩)._status =
      EvalStatus.passed := by
  constructor
  · apply (evalOne_normalization (fun _ => Except.ok "3") (7/10) ⟨"1", "q", "e", "m"⟩
      "3" rfl).2.2.2.2.2.2.2.1 rfl
    have h3 : parseJudgeOutput "3" = (3, "") := by decide
    show (evalOne (fun _ => Except.ok "3") (7/10) ⟨"1", "q", "e", "m"⟩)._evalScore = 1/2
    unfold evalOne
    norm_num [h3]
  · apply (evalOne_normalization (fun _ => Except.ok "4\nok") (7/10) ⟨"1", "q", "e", "m"⟩
      "4\nok" rfl).2.2.2.2.2.2.2.2 rfl
    have h4 : parseJudgeOutput "4\nok" = (4, "ok") := by decide
    show (evalOne (fun _ => Except.ok "4\nok") (7/10) ⟨"1", "q", "e", "m"⟩)._evalScore = 3/4
    unfold evalOne
    norm_num [h4]

/-- C7: when the oracle-inclusion draw fails, the sample's documents are
exactly the composed distractor set, none of them is an oracle, the answer is
the fixed refusal text, and with no remote results and no siblings the sample
still comes out, with zero documents. -/
theorem raft_oracle_excluded (question answer : String)
    (searchResults : List (String × String)) (shuffledOthers : List RaftItem)
    (numDistractors : ℕ) (shuffleOutcome : List RaftDoc) :
    (prepareRaftSample question answer
      (raftDistractors searchResults shuffledOthers numDistractors) false
      shuffleOutcome).documents =
        raftDistractors searchResults shuffledOthers numDistractors ∧
    (∀ d ∈ (prepareRaftSample question answer
      (raftDistractors searchResults shuffledOthers numDistractors) false
      shuffleOutcome).documents, d.is_oracle = false) ∧
    (prepareRaftSample question answer
      (raftDistractors searchResults shuffledOthers numDistractors) false
      shuffleOutcome).cotAnswer = raftRefusalAnswer question ∧
    (prepareRaftSample question answer
      (raftDistractors searchResults shuffledOthers numDistractors) false
      shuffleOutcome).oracleIncluded = false ∧
    (searchResults = [] → shuffledOthers = [] →
      (prepareRaftSample question answer
        (raftDistractors searchResults shuffledOthers numDistractors) false
        shuffleOutcome).documents = []) := by
  have hs : prepareRaftSample question answer
      (raftDistractors searchResults shuffledOthers numDistractors) false shuffleOutcome =
      ⟨raftDistractors searchResults shuffledOthers numDistractors,
        raftRefusalAnswer question,
        raftUserContent (raftDistractors searchResults shuffledOthers numDistractors)
          question, false⟩ := by
    unfold prepareRaftSample
    rfl
  rw [hs]
  refine ⟨rfl, raftDistractors_no_oracle _ _ _, rfl, rfl, ?_⟩
  intro h1 h2
  subst h1
  subst h2
  unfold raftDistractors weaviateDistractors createFallbackDistractors
  split <;> simp

/-- C7 witness: no remote results, no siblings, oracle excluded — the sample
has zero documents and the refusal answer, with no error. -/
theorem raft_oracle_excluded_witness :
    (prepareRaftSample "Q" "A" (raftDistractors [] [] 4) false []).documents =
      raftDistractors [] [] 4 ∧
    (∀ d ∈ (prepareRaftSample "Q" "A" (raftDistractors [] [] 4) false []).documents,
      d.is_oracle = false) ∧
    (prepareRaftSample "Q" "A" (raftDistractors [] [] 4) false []).cotAnswer =
      raftRefusalAnswer "Q" ∧
    (prepareRaftSample "Q" "A" (raftDistractors [] [] 4) false []).oracleIncluded = false ∧
    ([] = ([] : List (String × String)) → [] = ([] : List RaftItem) →
      (prepareRaftSample "Q" "A" (raftDistractors [] [] 4) false []).documents = []) :=
  raft_oracle_excluded "Q" "A" [] [] 4 []

/-- C1: when the oracle-inclusion draw succeeds, for every outcome of the
shuffle and every distractor set produced by the pipeline, the shuffled
documents contain exactly one oracle document, and the chain-of-thought
answer cites exactly its 1-indexed position. -/
theorem raft_oracle_citation (question answer itemId : String) (i : ℕ)
    (searchResults : List (String × String)) (shuffledOthers : List RaftItem)
    (numDistractors : ℕ) (shuffleOutcome : List RaftDoc)
    (hperm : shuffleOutcome.Perm
      (raftOracleDoc itemId i question answer ::
        raftDistractors searchResults shuffledOthers numDistractors)) :
    ∃ k, ∃ hk : k < shuffleOutcome.length,
      (shuffleOutcome.get ⟨k, hk⟩).is_oracle = true ∧
      (∀ j (hj : j < shuffleOutcome.length),
        (shuffleOutcome.get ⟨j, hj⟩).is_oracle = true → j = k) ∧
      (prepareRaftSample question answer
        (raftDistractors searchResults shuffledOthers numDistractors) true
        shuffleOutcome).documents = shuffleOutcome ∧
      (prepareRaftSample question answer
        (raftDistractors searchResults shuffledOthers numDistractors) true
        shuffleOutcome).cotAnswer = generateCotAnswer question answer ((k : ℤ) + 1) := by
  have hmem : raftOracleDoc itemId i question answer ∈ shuffleOutcome :=
    hperm.mem_iff.mpr (List.mem_cons_self _ _)
  have hex : ∃ x, x ∈ shuffleOutcome ∧ (fun d : RaftDoc => d.is_oracle) x = true :=
    ⟨_, hmem, rfl⟩
  have hfind : shuffleOutcome.findIdx? (fun d => d.is_oracle) =
      some (shuffleOutcome.findIdx (fun d => d.is_oracle)) :=
    List.findIdx?_eq_some_of_exists hex
  obtain ⟨hk, hpk, -⟩ := List.findIdx?_eq_some_iff_getElem.mp hfind
  have hz : (raftDistractors searchResults shuffledOthers numDistractors).countP
      (fun d => d.is_oracle) = 0 := by
    apply List.countP_eq_zero.mpr
    intro d hd
    simp [raftDistractors_no_oracle _ _ _ d hd]
  have hcnt : shuffleOutcome.countP (fun d => d.is_oracle) = 1 := by
    rw [hperm.countP_eq, List.countP_cons, hz]
    norm_num [raftOracleDoc]
  refine ⟨shuffleOutcome.findIdx (fun d => d.is_oracle), hk, ?_, ?_, ?_, ?_⟩
  · simpa [List.get_eq_getElem] using hpk
  · intro j hj hpj
    exact countP_one_unique (fun d => d.is_oracle) shuffleOutcome hcnt j
      (shuffleOutcome.findIdx (fun d => d.is_oracle)) hj hk hpj
      (by simpa [List.get_eq_getElem] using hpk)
  · unfold prepareRaftSample
    rw [if_pos rfl]
  · unfold prepareRaftSample
    rw [if_pos rfl]
    dsimp only
    rw [hfind]

/-- C1 witness: one distractor, the oracle shuffled to the second slot — the
answer cites Document 2. -/
theorem raft_oracle_citation_witness :
    ∃ k, ∃ hk : k <
      ([⟨"distractor_2", "q2\n\na2", false⟩,
        ⟨"oracle_7", "Q\n\nA", true⟩] : List RaftDoc).length,
      (([⟨"distractor_2", "q2\n\na2", false⟩,
        ⟨"oracle_7", "Q\n\nA", true⟩] : List RaftDoc).get ⟨k, hk⟩).is_oracle = true ∧
      (∀ j (hj : j < ([⟨"distractor_2", "q2\n\na2", false⟩,
          ⟨"oracle_7", "Q\n\nA", true⟩] : List RaftDoc).length),
        (([⟨"distractor_2", "q2\n\na2", false⟩,
          ⟨"oracle_7", "Q\n\nA", true⟩] : List RaftDoc).get ⟨j, hj⟩).is_oracle = true →
          j = k) ∧
      (prepareRaftSample "Q" "A" (raftDistractors [] [⟨"2", "q2", "a2"⟩] 1) true
        [⟨"distractor_2", "q2\n\na2", false⟩, ⟨"oracle_7", "Q\n\nA", true⟩]).documents =
        [⟨"distractor_2", "q2\n\na2", false⟩, ⟨"oracle_7", "Q\n\nA", true⟩] ∧
      (prepareRaftSample "Q" "A" (raftDistractors [] [⟨"2", "q2", "a2"⟩] 1) true
        [⟨"distractor_2", "q2\n\na2", false⟩, ⟨"oracle_7", "Q\n\nA", true⟩]).cotAnswer =
        generateCotAnswer "Q" "A" ((k : ℤ) + 1) :=
  raft_oracle_citation "Q" "A" "7" 0 [] [⟨"2", "q2", "a2"⟩] 1
    [⟨"distractor_2", "q2\n\na2", false⟩, ⟨"oracle_7", "Q\n\nA", true⟩]
    (by decide)

end AxolotlRaft
